import Mathlib

/-
  Verification development for the Tavus Pipecat quickstart bot
  (src/tavus-pipecat.py).

  The file is integration glue: it builds a fixed pipeline of vendor
  services, seeds a conversation context with a system prompt, and
  registers two event callbacks (client-ready, client-disconnected).
  We embed the data the callbacks touch — the conversation message list
  (shared by reference between the local `messages` variable and the
  `LLMContext`), the task's queued frames and cancellation flag — as an
  explicit state, and the two callbacks plus the two context-aggregator
  stages as state transformers.  Python list aliasing is made explicit
  by a tiny heap (location → message list): `messages` is a location,
  and `LLMContext(messages)` stores that location.

  Every definition is translated from src/tavus-pipecat.py except where
  a doc comment says `Modelled from the spec:` — those model behaviour
  of pipecat collaborators (event delivery, `create_transport`, the
  aggregator adapters, by-reference storage in `LLMContext`) that the
  repository only configures.
-/

namespace TavusPipecat

/-- Message roles used in the conversation context (src lines 132-137,
204-209: only "system" appears in src; "user"/"assistant" entries are
appended by the aggregator pair per spec §4.3). -/
inductive Role
  | system
  | user
  | assistant
deriving DecidableEq, Repr

/-- A conversation message: a role-tagged text entry (the dicts with
"role"/"content" keys in src lines 132-137 and 204-209). -/
structure Message where
  role : Role
  content : String
deriving DecidableEq, Repr

/-- The fixed system prompt, src lines 132-137 (verbatim). -/
def systemPrompt : Message :=
  { role := Role.system,
    content := "You are a helpful LLM in a WebRTC call. Your goal is to demonstrate your capabilities in a succinct way. Your output will be converted to audio so don\x27t include special characters in your answers. Respond to what the user said in a creative and helpful way." }

/-- The greeting-directive system message appended by the
`on_client_ready` handler, src lines 204-209 (verbatim). -/
def greetingDirective : Message :=
  { role := Role.system,
    content := "Start by greeting the user and ask how you can help." }

/-- `messages = [{"role": "system", "content": ...}]`, src lines 132-137. -/
def initialMessages : List Message := [systemPrompt]

/-- A heap location: Python object identity for a list object. -/
abbrev Loc := Nat

/-- The heap maps each location to the message list currently stored
there.  This makes Python's list aliasing explicit. -/
abbrev Heap := Loc → List Message

/-- Append one message to the list stored at location `l` (Python
`list.append` mutates the shared object in place). -/
def heapAppend (h : Heap) (l : Loc) (m : Message) : Heap :=
  fun l2 => if l2 = l then h l ++ [m] else h l2

/-- The conversation context.  Modelled from the spec: §3 says the
context "owns the message sequence; shared by reference between the two
aggregator adapters and the language-model client" — `LLMContext` is
pipecat library code, so per the spec it stores the location of the
list it is given, not a copy. -/
structure LLMContext where
  messagesLoc : Loc
deriving DecidableEq, Repr

/-- `LLMContext(messages)` — the constructor receives the list object
(its location) and stores it (src line 141; by-reference storage
modelled from the spec, see `LLMContext`). -/
def LLMContext.ofRef (l : Loc) : LLMContext := ⟨l⟩

/-- The location of the local `messages` list created at src line 132. -/
def messagesLoc : Loc := 0

/-- The heap at session start: the `messages` list holds the system
prompt; no other list exists. -/
def initHeap : Heap := fun l => if l = messagesLoc then initialMessages else []

/-- `context = LLMContext(messages)`, src line 141. -/
def context : LLMContext := LLMContext.ofRef messagesLoc

/-- Frames queued on the task from this file: src line 213 queues a
single `LLMRunFrame`. -/
inductive Frame
  | LLMRunFrame
deriving DecidableEq, Repr

/-- The components that write to the conversation context: the two
aggregator stages of `LLMContextAggregatorPair` (src line 145, spec
§4.3) and the `on_client_ready` callback (src lines 204-209). -/
inductive Writer
  | userAggregator
  | assistantAggregator
  | rtviCallback
deriving DecidableEq, Repr

/-- Observable effects, recorded in order of occurrence so that the
ordering claims about the callbacks are statable. -/
inductive Effect
  | setBotReady
  | append (w : Writer) (m : Message)
  | queueFrame (f : Frame)
  | cancelTask
deriving DecidableEq, Repr

/-- The session-scoped mutable state touched by the code in src:
the heap of message lists, the RTVI bot-ready flag, the task's
cancellation flag and queued frames, plus the ordered effect log. -/
structure SessionState where
  heap : Heap
  botReady : Bool
  cancelled : Bool
  queuedFrames : List Frame
  log : List Effect

/-- State at session start (after src lines 132-190: context built,
task built, nothing cancelled, nothing queued). -/
def initState : SessionState :=
  { heap := initHeap, botReady := false, cancelled := false,
    queuedFrames := [], log := [] }

/-- `await rtvi.set_bot_ready()`, src line 200: signals bot readiness. -/
def set_bot_ready (s : SessionState) : SessionState :=
  { s with botReady := true, log := s.log ++ [Effect.setBotReady] }

/-- An in-place append to the message list at location `l`, recorded in
the log under the component `w` that performed it. -/
def appendVia (w : Writer) (l : Loc) (m : Message) (s : SessionState) :
    SessionState :=
  { s with heap := heapAppend s.heap l m, log := s.log ++ [Effect.append w m] }

/-- `await task.queue_frames(fs)`, src line 213: enqueues the given
frames on the task. -/
def queue_frames (fs : List Frame) (s : SessionState) : SessionState :=
  { s with queuedFrames := s.queuedFrames ++ fs,
           log := s.log ++ fs.map Effect.queueFrame }

/-- `await task.cancel()`, src line 220. -/
def task_cancel (s : SessionState) : SessionState :=
  { s with cancelled := true, log := s.log ++ [Effect.cancelTask] }

/-- The `on_client_ready` handler body, src lines 194-213, in source
order: `await rtvi.set_bot_ready()`, then `messages.append({"role":
"system", "content": "Start by greeting ..."})` (an append through the
local `messages` list, location `messagesLoc`), then
`await task.queue_frames([LLMRunFrame()])`. -/
def on_client_ready (s : SessionState) : SessionState :=
  queue_frames [Frame.LLMRunFrame]
    (appendVia Writer.rtviCallback messagesLoc greetingDirective
      (set_bot_ready s))

/-- The `on_client_disconnected` handler body, src lines 216-220:
`await task.cancel()`, unconditionally. -/
def on_client_disconnected (s : SessionState) : SessionState :=
  task_cancel s

/-- The user-side aggregator stage (`context_aggregator.user()`, src
line 160).  Modelled from the spec: §4.3 — it "observes finalized
transcribed-text frames and appends a user message" to the shared
context, i.e. to the list at `context.messagesLoc`. -/
def userAggregatorAppend (t : String) (s : SessionState) : SessionState :=
  appendVia Writer.userAggregator context.messagesLoc
    { role := Role.user, content := t } s

/-- The assistant-side aggregator stage (`context_aggregator.assistant()`,
src line 165).  Modelled from the spec: §4.3 — it "observes finalized
model-output frames and appends an assistant message" to the shared
context. -/
def assistantAggregatorAppend (t : String) (s : SessionState) : SessionState :=
  appendVia Writer.assistantAggregator context.messagesLoc
    { role := Role.assistant, content := t } s

/-- Session events that reach the code in src: the two registered
callbacks' triggers, and the finalized-frame arrivals handled by the
aggregator stages. -/
inductive Event
  | clientReady
  | clientDisconnected
  | userTranscription (t : String)
  | assistantReply (t : String)
deriving DecidableEq, Repr

/-- One event delivery.  Modelled from the spec for the gating: §4.6
and §5 — cancellation "tears down the pipeline", and callbacks are
serialized with frame processing, so after `task.cancel()` no further
events are processed.  The per-event behaviour is the src handlers and
the aggregator stages above. -/
def step (s : SessionState) (e : Event) : SessionState :=
  if s.cancelled then s
  else
    match e with
    | Event.clientReady => on_client_ready s
    | Event.clientDisconnected => on_client_disconnected s
    | Event.userTranscription t => userAggregatorAppend t s
    | Event.assistantReply t => assistantAggregatorAppend t s

/-- Deliver a sequence of events in order (spec §5: single cooperative
schedule, strictly serialized). -/
def runTrace (s : SessionState) (es : List Event) : SessionState :=
  es.foldl step s

/-- Number of greeting-directive entries in a message list. -/
def countGreeting (ms : List Message) : Nat :=
  ms.countP (fun m => m == greetingDirective)

/-- The nine processor stages that appear in the `Pipeline([...])` call,
src lines 155-167. -/
inductive Stage
  | transportInput
  | rtvi
  | stt
  | userContextAggregator
  | llm
  | tts
  | tavus
  | transportOutput
  | assistantContextAggregator
deriving DecidableEq, Repr

/-- The pipeline built at src lines 155-167: a plain Python list of
processors, in source order, passed to `Pipeline`. -/
def pipeline : List Stage :=
  [Stage.transportInput,
   Stage.rtvi,
   Stage.stt,
   Stage.userContextAggregator,
   Stage.llm,
   Stage.tts,
   Stage.tavus,
   Stage.transportOutput,
   Stage.assistantContextAggregator]

/-- The `PipelineParams` fields set at src lines 172-186. -/
structure PipelineParams where
  audio_in_sample_rate : Nat
  audio_out_sample_rate : Nat
  enable_metrics : Bool
  enable_usage_metrics : Bool
deriving DecidableEq, Repr

/-- The parameter record passed to `PipelineTask`, src lines 172-186:
`audio_in_sample_rate=16000, audio_out_sample_rate=24000,
enable_metrics=True, enable_usage_metrics=True`. -/
def pipelineParams : PipelineParams :=
  { audio_in_sample_rate := 16000,
    audio_out_sample_rate := 24000,
    enable_metrics := true,
    enable_usage_metrics := true }

/-- The `TransportParams` fields set by the webrtc builder, src lines
58-82.  The two analyzer objects are abstracted to their configured
parameters: `SileroVADAnalyzer(params=VADParams(stop_secs=0.2))` to its
trailing-silence threshold in seconds (as a rational), and
`LocalSmartTurnAnalyzerV3(params=SmartTurnParams())` to a presence
flag. -/
structure TransportParams where
  audio_in_enabled : Bool
  audio_out_enabled : Bool
  video_out_enabled : Bool
  video_out_is_live : Bool
  video_out_width : Nat
  video_out_height : Nat
  vad_stop_secs : ℚ
  smart_turn_analyzer : Bool
deriving DecidableEq, Repr

/-- The value the `"webrtc"` lambda constructs, src lines 58-82. -/
def webrtcTransportParams : TransportParams :=
  { audio_in_enabled := true,
    audio_out_enabled := true,
    video_out_enabled := true,
    video_out_is_live := true,
    video_out_width := 1280,
    video_out_height := 720,
    vad_stop_secs := 1 / 5,
    smart_turn_analyzer := true }

/-- `transport_params`, src lines 57-83: a mapping from transport kind
to a zero-argument builder (the Python dict of lambdas); `"webrtc"` is
its only key. -/
def transport_params : List (String × (Unit → TransportParams)) :=
  [("webrtc", fun _ => webrtcTransportParams)]

/-- Configuration errors raised during startup. -/
inductive ConfigError
  | unknownTransport (kind : String)
deriving DecidableEq, Repr

/-- A constructed transport instance (kind plus the parameters its
builder produced). -/
structure Transport where
  kind : String
  params : TransportParams
deriving DecidableEq, Repr

/-- `create_transport(runner_args, transport_params)`, called at src
line 243.  Modelled from the spec: §4.1 — "given a transport-kind
identifier and a mapping from kind → zero-argument configuration
builder, resolve and construct exactly one transport instance;
unresolved kinds fail with a configuration error", builders being lazy.
`create_transport` itself is pipecat library code (pipecat.runner.utils),
not in src/.  The second component of the result counts how many times
a builder was invoked, making "constructs no TransportParams" /
"invokes the builder exactly once" observable. -/
def create_transport (kind : String)
    (ps : List (String × (Unit → TransportParams))) :
    Except ConfigError Transport × Nat :=
  match ps.lookup kind with
  | none => (Except.error (ConfigError.unknownTransport kind), 0)
  | some build => (Except.ok { kind := kind, params := build () }, 1)

/-- A log entry is a write by one of the two aggregators. -/
def isAggregatorWrite (e : Effect) : Bool :=
  match e with
  | Effect.append w _ =>
      w == Writer.userAggregator || w == Writer.assistantAggregator
  | _ => true

/-- Claim C6 as stated: over a whole session trace, every write to the
conversation context was performed by one of the two aggregator
components. -/
def writesOnlyByAggregators (es : List Event) : Prop :=
  ∀ e ∈ (runTrace initState es).log, isAggregatorWrite e = true

/-- A log entry is a write permitted by the amended writer discipline:
the user aggregator writing a user entry, the assistant aggregator
writing an assistant entry, or the ready callback writing the greeting
directive. -/
def allowedWrite (e : Effect) : Bool :=
  match e with
  | Effect.append w m =>
      (w == Writer.userAggregator && m.role == Role.user) ||
      (w == Writer.assistantAggregator && m.role == Role.assistant) ||
      (w == Writer.rtviCallback && m == greetingDirective)
  | _ => true

/- ------------------------------------------------------------------
   Helper lemmas (shared by several claim theorems).
   ------------------------------------------------------------------ -/

theorem step_of_cancelled {s : SessionState} (h : s.cancelled = true)
    (e : Event) : step s e = s := by
  simp [step, h]

theorem runTrace_of_cancelled {s : SessionState} (h : s.cancelled = true) :
    ∀ es : List Event, runTrace s es = s := by
  intro es
  induction es with
  | nil => rfl
  | cons e es ih =>
      show runTrace (step s e) es = s
      rw [step_of_cancelled h, ih]

theorem runTrace_append (s : SessionState) (es1 es2 : List Event) :
    runTrace s (es1 ++ es2) = runTrace (runTrace s es1) es2 :=
  List.foldl_append step s es1 es2

theorem countGreeting_append (ms : List Message) (m : Message) :
    countGreeting (ms ++ [m]) =
      countGreeting ms + (if m = greetingDirective then 1 else 0) := by
  simp [countGreeting, List.countP_append, List.countP_cons]

theorem heapAppend_same (h : Heap) (l : Loc) (m : Message) :
    heapAppend h l m l = h l ++ [m] := by
  simp [heapAppend]

/-- A trace with no client-ready event leaves the queued frames and the
greeting count unchanged (the ready callback is the only code that
queues frames or appends the greeting directive). -/
theorem runTrace_no_ready (es : List Event)
    (hnr : Event.clientReady ∉ es) (s : SessionState) (l : Loc) :
    (runTrace s es).queuedFrames = s.queuedFrames ∧
      countGreeting ((runTrace s es).heap l) = countGreeting (s.heap l) := by
  induction es generalizing s with
  | nil => exact ⟨rfl, rfl⟩
  | cons e es ih =>
      have hne : e ≠ Event.clientReady := fun h => hnr (h ▸ List.mem_cons_self e es)
      have hnr2 : Event.clientReady ∉ es := fun h => hnr (List.mem_cons_of_mem e h)
      show (runTrace (step s e) es).queuedFrames = s.queuedFrames ∧ _
      rcases ih hnr2 (step s e) with ⟨hq, hg⟩
      refine ⟨hq.trans ?_, hg.trans ?_⟩
      · by_cases hc : s.cancelled = true
        · rw [step_of_cancelled hc]
        · cases e with
          | clientReady => exact absurd rfl hne
          | clientDisconnected =>
              simp [step, hc, on_client_disconnected, task_cancel]
          | userTranscription t =>
              simp [step, hc, userAggregatorAppend, appendVia]
          | assistantReply t =>
              simp [step, hc, assistantAggregatorAppend, appendVia]
      · by_cases hc : s.cancelled = true
        · rw [step_of_cancelled hc]
        · cases e with
          | clientReady => exact absurd rfl hne
          | clientDisconnected =>
              simp [step, hc, on_client_disconnected, task_cancel]
          | userTranscription t =>
              by_cases hl : l = context.messagesLoc
              · subst hl
                simp [step, hc, userAggregatorAppend, appendVia,
                  heapAppend_same, countGreeting_append, greetingDirective]
              · simp [step, hc, userAggregatorAppend, appendVia, heapAppend, hl]
          | assistantReply t =>
              by_cases hl : l = context.messagesLoc
              · subst hl
                simp [step, hc, assistantAggregatorAppend, appendVia,
                  heapAppend_same, countGreeting_append, greetingDirective]
              · simp [step, hc, assistantAggregatorAppend, appendVia, heapAppend, hl]

/-- Every step only ever appends to the message list at any location. -/
theorem step_heap_extend (s : SessionState) (e : Event) (l : Loc) :
    ∃ t : List Message, (step s e).heap l = s.heap l ++ t := by
  by_cases hc : s.cancelled = true
  · exact ⟨[], by rw [step_of_cancelled hc]; simp⟩
  · cases e with
    | clientReady =>
        by_cases hl : l = messagesLoc
        · subst hl
          exact ⟨[greetingDirective], by
            simp [step, hc, on_client_ready, queue_frames, appendVia,
              set_bot_ready, heapAppend_same]⟩
        · exact ⟨[], by
            simp [step, hc, on_client_ready, queue_frames, appendVia,
              set_bot_ready, heapAppend, hl]⟩
    | clientDisconnected =>
        exact ⟨[], by simp [step, hc, on_client_disconnected, task_cancel]⟩
    | userTranscription t =>
        by_cases hl : l = context.messagesLoc
        · subst hl
          exact ⟨[{ role := Role.user, content := t }], by
            simp [step, hc, userAggregatorAppend, appendVia, heapAppend_same]⟩
        · exact ⟨[], by
            simp [step, hc, userAggregatorAppend, appendVia, heapAppend, hl]⟩
    | assistantReply t =>
        by_cases hl : l = context.messagesLoc
        · subst hl
          exact ⟨[{ role := Role.assistant, content := t }], by
            simp [step, hc, assistantAggregatorAppend, appendVia, heapAppend_same]⟩
        · exact ⟨[], by
            simp [step, hc, assistantAggregatorAppend, appendVia, heapAppend, hl]⟩

/-- Over a whole trace the message list at any location only grows by
appending. -/
theorem runTrace_heap_extend (es : List Event) (s : SessionState) (l : Loc) :
    ∃ t : List Message, (runTrace s es).heap l = s.heap l ++ t := by
  induction es generalizing s with
  | nil => exact ⟨[], by simp [runTrace]⟩
  | cons e es ih =>
      rcases step_heap_extend s e l with ⟨t1, h1⟩
      rcases ih (step s e) with ⟨t2, h2⟩
      exact ⟨t1 ++ t2, by
        show (runTrace (step s e) es).heap l = _
        rw [h2, h1, List.append_assoc]⟩

/-- Every step appends only allowed writes to the effect log. -/
theorem step_log_allowed (s : SessionState) (e : Event)
    (hs : s.log.all allowedWrite = true) :
    (step s e).log.all allowedWrite = true := by
  by_cases hc : s.cancelled = true
  · rw [step_of_cancelled hc]; exact hs
  · cases e with
    | clientReady =>
        simp [step, hc, on_client_ready, queue_frames, appendVia,
          set_bot_ready, List.all_append, allowedWrite] at hs ⊢
        exact hs
    | clientDisconnected =>
        simp [step, hc, on_client_disconnected, task_cancel,
          List.all_append, allowedWrite] at hs ⊢
        exact hs
    | userTranscription t =>
        simp [step, hc, userAggregatorAppend, appendVia,
          List.all_append, allowedWrite] at hs ⊢
        exact hs
    | assistantReply t =>
        simp [step, hc, assistantAggregatorAppend, appendVia,
          List.all_append, allowedWrite] at hs ⊢
        exact hs

theorem runTrace_log_allowed (es : List Event) (s : SessionState)
    (hs : s.log.all allowedWrite = true) :
    (runTrace s es).log.all allowedWrite = true := by
  induction es generalizing s with
  | nil => exact hs
  | cons e es ih => exact ih (step s e) (step_log_allowed s e hs)

theorem on_client_ready_greeting_succ (s : SessionState) :
    countGreeting ((on_client_ready s).heap messagesLoc) =
      countGreeting (s.heap messagesLoc) + 1 := by
  simp [on_client_ready, queue_frames, appendVia, set_bot_ready,
    heapAppend_same, countGreeting_append]

/- ------------------------------------------------------------------
   Claim theorems.
   ------------------------------------------------------------------ -/

/-- Claim C1, counterexample: the `on_client_ready` handler appends the
greeting directive unconditionally (src lines 204-209), so invoking it
twice does not leave the single greeting entry the claim asserts — the
context then holds two greeting-directive entries. -/
theorem c1_counterexample :
    countGreeting ((on_client_ready (on_client_ready initState)).heap
        context.messagesLoc) = 2 ∧
    countGreeting ((on_client_ready initState).heap context.messagesLoc) = 1 ∧
    (2 : Nat) ≠ 1 := by
  refine ⟨?_, ?_, by decide⟩ <;> decide

/-- Claim C1, amended: the handler itself is not idempotent — each
invocation of `on_client_ready` appends exactly one greeting directive,
so after n invocations the context holds exactly n greeting entries.
The greeting therefore appears exactly once in a session if and only if
the RTVI collaborator delivers the ready callback exactly once. -/
theorem c1_greeting_count_equals_invocations (n : Nat) :
    countGreeting ((on_client_ready^[n] initState).heap messagesLoc) = n := by
  induction n with
  | zero => decide
  | succ n ih =>
      rw [Function.iterate_succ_apply', on_client_ready_greeting_succ, ih]

/-- Claim C2: on the client-ready signal the handler performs exactly
three effects, in source order — it signals bot readiness, appends one
system-role greeting-directive message to the conversation context, and
enqueues one LLMRunFrame on the task — with `set_bot_ready` first. -/
theorem c2_on_client_ready_effects (s : SessionState) :
    (on_client_ready s).log =
      s.log ++ [Effect.setBotReady,
                Effect.append Writer.rtviCallback greetingDirective,
                Effect.queueFrame Frame.LLMRunFrame] ∧
    (on_client_ready s).botReady = true ∧
    (on_client_ready s).queuedFrames = s.queuedFrames ++ [Frame.LLMRunFrame] ∧
    (on_client_ready s).heap messagesLoc =
      s.heap messagesLoc ++ [greetingDirective] ∧
    greetingDirective.role = Role.system := by
  refine ⟨?_, ?_, ?_, ?_, rfl⟩ <;>
    simp [on_client_ready, queue_frames, appendVia, set_bot_ready,
      heapAppend_same]

/-- Claim C3: the pipeline built at src lines 155-167 is exactly the
nine stages, in this order, with no stage repeated (and, being a plain
list, no branching). -/
theorem c3_pipeline_stages :
    pipeline = [Stage.transportInput, Stage.rtvi, Stage.stt,
      Stage.userContextAggregator, Stage.llm, Stage.tts, Stage.tavus,
      Stage.transportOutput, Stage.assistantContextAggregator] ∧
    pipeline.length = 9 ∧ pipeline.Nodup := by
  refine ⟨rfl, rfl, ?_⟩
  decide

/-- Claim C4, counterexample: the constructed PipelineParams does not
apply one uniform sample rate — audio input is 16000 Hz while audio
output is 24000 Hz (src lines 172-186). -/
theorem c4_counterexample :
    pipelineParams.audio_in_sample_rate ≠
      pipelineParams.audio_out_sample_rate := by
  decide

/-- Claim C4, amended: the task is configured with fixed audio sample
rates — 16000 Hz for input and 24000 Hz for output, which differ — and
both metrics flags enabled. -/
theorem c4_fixed_sample_rates :
    pipelineParams.audio_in_sample_rate = 16000 ∧
    pipelineParams.audio_out_sample_rate = 24000 ∧
    pipelineParams.audio_in_sample_rate ≠
      pipelineParams.audio_out_sample_rate ∧
    pipelineParams.enable_metrics = true ∧
    pipelineParams.enable_usage_metrics = true := by
  refine ⟨rfl, rfl, ?_, rfl, rfl⟩
  decide

/-- Claim C5: if the client-disconnect signal arrives before any
client-ready signal, the disconnect callback cancels the task, and no
greeting directive is ever appended to the conversation context and no
LLMRunFrame is ever enqueued — in particular events delivered after the
cancellation are not processed (spec §4.6 teardown). -/
theorem c5_disconnect_before_ready (pre post : List Event)
    (h : Event.clientReady ∉ pre) :
    (runTrace initState
        (pre ++ Event.clientDisconnected :: post)).cancelled = true ∧
    countGreeting ((runTrace initState
        (pre ++ Event.clientDisconnected :: post)).heap
          context.messagesLoc) = 0 ∧
    (runTrace initState
        (pre ++ Event.clientDisconnected :: post)).queuedFrames = [] := by
  have hmid := runTrace_no_ready pre h initState context.messagesLoc
  have hq0 : (runTrace initState pre).queuedFrames = [] := hmid.1
  have hg0 : countGreeting ((runTrace initState pre).heap
      context.messagesLoc) = 0 := by
    rw [hmid.2]; decide
  rw [runTrace_append]
  have hrw : runTrace (runTrace initState pre)
      (Event.clientDisconnected :: post) =
      runTrace (step (runTrace initState pre) Event.clientDisconnected)
        post := rfl
  rw [hrw]
  by_cases hc : (runTrace initState pre).cancelled = true
  · rw [step_of_cancelled hc, runTrace_of_cancelled hc]
    exact ⟨hc, hg0, hq0⟩
  · have hstep : step (runTrace initState pre) Event.clientDisconnected =
        task_cancel (runTrace initState pre) := by
      simp [step, hc, on_client_disconnected]
    have hcanc : (task_cancel (runTrace initState pre)).cancelled = true := rfl
    rw [hstep, runTrace_of_cancelled hcanc]
    exact ⟨rfl, by simpa [task_cancel] using hg0,
      by simpa [task_cancel] using hq0⟩

/-- Witness for C5 at a concrete trace: one user utterance, then the
disconnect, then a late ready signal that is no longer processed. -/
theorem c5_witness :
    Event.clientReady ∉ [Event.userTranscription "hello"] ∧
    ((runTrace initState ([Event.userTranscription "hello"] ++
        Event.clientDisconnected :: [Event.clientReady])).cancelled = true ∧
     countGreeting ((runTrace initState
        ([Event.userTranscription "hello"] ++
          Event.clientDisconnected :: [Event.clientReady])).heap
            context.messagesLoc) = 0 ∧
     (runTrace initState ([Event.userTranscription "hello"] ++
        Event.clientDisconnected :: [Event.clientReady])).queuedFrames
          = []) :=
  ⟨by decide, c5_disconnect_before_ready [Event.userTranscription "hello"]
    [Event.clientReady] (by decide)⟩

/-- Claim C6, counterexample: the conversation context is not written
only by the two aggregators — delivering the client-ready signal makes
the `on_client_ready` callback (a third component) write the greeting
directive into the context. -/
theorem c6_counterexample :
    ¬ writesOnlyByAggregators [Event.clientReady] := by
  unfold writesOnlyByAggregators
  decide

/-- Claim C6, amended: every write to the conversation context during a
session is by the user-side aggregator writing a user-role entry, by
the assistant-side aggregator writing an assistant-role entry, or — the
one correction — by the `on_client_ready` callback writing the
greeting-directive system entry; no other component ever writes. -/
theorem c6_writer_discipline (es : List Event) :
    ((runTrace initState es).log).all allowedWrite = true :=
  runTrace_log_allowed es initState rfl

/-- Claim C8: at session start the context's message sequence begins
with the fixed system prompt, and the sequence is append-only — every
event delivery, and hence every whole trace, only extends it (nothing
is removed, reordered or rewritten). -/
theorem c8_first_entry_append_only :
    (initState.heap context.messagesLoc).head? = some systemPrompt ∧
    (∀ s e, ∃ t, (step s e).heap context.messagesLoc =
        s.heap context.messagesLoc ++ t) ∧
    (∀ es, ∃ t, (runTrace initState es).heap context.messagesLoc =
        initialMessages ++ t) := by
  refine ⟨rfl, fun s e => step_heap_extend s e _, fun es => ?_⟩
  have h := runTrace_heap_extend es initState context.messagesLoc
  rwa [show initState.heap context.messagesLoc = initialMessages from rfl]
    at h

/-- Claim C9: for every transport kind other than "webrtc" selection
fails with a configuration error with no builder invocation (so no
TransportParams and no transport is constructed); for "webrtc" exactly
one transport is constructed by invoking its zero-argument builder
exactly once. -/
theorem c9_transport_selection (kind : String) (h : kind ≠ "webrtc") :
    (create_transport kind transport_params).1 =
      Except.error (ConfigError.unknownTransport kind) ∧
    (create_transport kind transport_params).2 = 0 ∧
    (create_transport "webrtc" transport_params).1 =
      Except.ok { kind := "webrtc", params := webrtcTransportParams } ∧
    (create_transport "webrtc" transport_params).2 = 1 := by
  have hb : (kind == "webrtc") = false := by
    simpa using h
  have hl : transport_params.lookup kind = none := by
    simp [transport_params, List.lookup, hb]
  exact ⟨by simp [create_transport, hl], by simp [create_transport, hl],
    rfl, rfl⟩

/-- Witness for C9 at the concrete unknown kind "daily" (the other
transport named in the src usage comment but absent from the mapping). -/
theorem c9_witness :
    "daily" ≠ "webrtc" ∧
    ((create_transport "daily" transport_params).1 =
      Except.error (ConfigError.unknownTransport "daily") ∧
     (create_transport "daily" transport_params).2 = 0 ∧
     (create_transport "webrtc" transport_params).1 =
      Except.ok { kind := "webrtc", params := webrtcTransportParams } ∧
     (create_transport "webrtc" transport_params).2 = 1) :=
  ⟨by decide, c9_transport_selection "daily" (by decide)⟩

/-- Claim C10: the context aliases the local messages list — the
`LLMContext` stores the very location of `messages`, so the ready
callback's append through `messages` is visible through the context,
and each aggregator's append through the context is visible through
`messages`. -/
theorem c10_context_aliases_messages :
    context.messagesLoc = messagesLoc ∧
    (∀ s, (on_client_ready s).heap context.messagesLoc =
        s.heap context.messagesLoc ++ [greetingDirective]) ∧
    (∀ t s, (userAggregatorAppend t s).heap messagesLoc =
        s.heap messagesLoc ++ [{ role := Role.user, content := t }]) ∧
    (∀ t s, (assistantAggregatorAppend t s).heap messagesLoc =
        s.heap messagesLoc ++ [{ role := Role.assistant, content := t }]) := by
  refine ⟨rfl, fun s => ?_, fun t s => ?_, fun t s => ?_⟩ <;>
    simp [on_client_ready, queue_frames, appendVia, set_bot_ready,
      userAggregatorAppend, assistantAggregatorAppend, heapAppend_same,
      context, LLMContext.ofRef]

end TavusPipecat
